import Mathlib

/-!
Shallow embedding of `src/proxy.py` (`proxy_handler`, lines 37-196) from the
video-proxy repository, together with theorems settling the frozen claims
about its behaviour.

Modelling conventions:
* Python strings are Lean `String`; header bags (aiohttp `CIMultiDict`) are
  association lists `List (String × String)` with case-insensitive first-match
  lookup (`ciGet`), matching `CIMultiDict.__getitem__` / `get`.
* Body bytes are `List Nat`; the upstream body stream is a list of events:
  either a chunk yielded by `response.content.iter_chunked(8192)` followed by
  `resp.write(chunk)`, or an exception raised inside that loop.
* Exceptions are data (`PyExc`): a class tag plus the result of `str(e)`.
  Per Python >= 3.8 semantics, `asyncio.CancelledError` derives from
  `BaseException` but not from `Exception`, so `except Exception` clauses do
  not catch it; `PyExc.isExceptionSubclass` records this.
* The fetch performed by `session.get/head` is an oracle input
  (`FetchResult`): either an upstream response or a raised exception.
* The handler's outward behaviour is a `HandlerOut`: the result (an HTTP
  response, or an exception propagating out of the handler) plus a record of
  the outbound fetch call it issued, if any.  Only headers the code sets
  explicitly are modelled (framework-added headers such as `Date` are not).
* `urllib.parse.unquote` is modelled at the byte level: each `%XX` hex escape
  becomes the character with code `XX`; invalid escapes are left verbatim.
-/

namespace VideoProxy

/-- Lowercase a character list (models Python `str.lower` on ASCII). -/
def lowerChars (cs : List Char) : List Char := cs.map Char.toLower

/-- Lowercase a string (models Python `str.lower`). -/
def lowerStr (s : String) : String := ⟨lowerChars s.data⟩

/-- Check that `n` is a leading segment of `h`. -/
def leadsChars : List Char → List Char → Bool
  | [], _ => true
  | _ :: _, [] => false
  | a :: as, b :: bs => a == b && leadsChars as bs

/-- Check that `n` occurs as a contiguous segment of `h` (models `in` on `str`). -/
def hasSubChars (n : List Char) : List Char → Bool
  | [] => n.isEmpty
  | b :: bs => leadsChars n (b :: bs) || hasSubChars n bs

/-- Check `needle in hay.lower()` for an already-lowercase `needle`. -/
def hasSubLower (needle hay : String) : Bool :=
  hasSubChars needle.data (lowerChars hay.data)

/-- Case-insensitive first-match lookup in a header list, modelling
`CIMultiDict.__getitem__` / `get` of aiohttp. -/
def ciGet (hs : List (String × String)) (k : String) : Option String :=
  match hs with
  | [] => none
  | (a, v) :: rest => if lowerStr a = lowerStr k then some v else ciGet rest k

/-- Hex digit value, accepting both cases (as `urllib.parse.unquote` does). -/
def hexVal (c : Char) : Option Nat :=
  if '0' ≤ c ∧ c ≤ '9' then some (c.toNat - 48)
  else if 'a' ≤ c ∧ c ≤ 'f' then some (c.toNat - 87)
  else if 'A' ≤ c ∧ c ≤ 'F' then some (c.toNat - 55)
  else none

/-- Percent-decoding of `%XX` escapes, modelling `urllib.parse.unquote`
(line 52) at the byte level; invalid escapes are left verbatim. -/
def unquoteChars : List Char → List Char
  | [] => []
  | '%' :: a :: b :: rest =>
    match hexVal a, hexVal b with
    | some x, some y => Char.ofNat (16 * x + y) :: unquoteChars rest
    | _, _ => '%' :: unquoteChars (a :: b :: rest)
  | c :: rest => c :: unquoteChars rest

/-- String-level percent-decoding (models `urllib.parse.unquote`). -/
def unquote (s : String) : String := ⟨unquoteChars s.data⟩

/-- Python truthiness of an optional string: `None` and `""` are falsy. -/
def pyTruthy : Option String → Bool
  | none => false
  | some s => !(s = "")

/-- HTTP method of the inbound request (the route serves GET and HEAD). -/
inductive Method where
  | get
  | head
deriving DecidableEq, Repr

/-- Inbound request: method, the `url` query parameter (absent or its raw
value), and the caller's headers. -/
structure InRequest where
  method : Method
  urlParam : Option String
  headers : List (String × String)
deriving DecidableEq, Repr

/-- Process-wide configuration derived from the environment (lines 18-20). -/
structure Config where
  useUpstream : Bool
  upstreamProxyUrl : String
deriving DecidableEq, Repr

/-- Class of a raised Python exception. -/
inductive ExcClass where
  | connectionResetError
  | brokenPipeError
  | cancelledError
  | otherExc (name : String)
deriving DecidableEq, Repr

/-- A raised Python exception: its class and the text of `str(e)`. -/
structure PyExc where
  cls : ExcClass
  msg : String
deriving DecidableEq, Repr

/-- Whether the class is one of the three caught explicitly at line 160:
`(ConnectionResetError, BrokenPipeError, asyncio.CancelledError)`. -/
def ExcClass.isLoopDisconnect : ExcClass → Bool
  | .connectionResetError => true
  | .brokenPipeError => true
  | .cancelledError => true
  | .otherExc _ => false

/-- Whether the exception derives from `Exception` (and is hence caught by an
`except Exception` clause).  In Python >= 3.8, `asyncio.CancelledError`
derives from `BaseException` only. -/
def PyExc.isExceptionSubclass (e : PyExc) : Bool :=
  match e.cls with
  | .cancelledError => false
  | _ => true

/-- One event of the upstream body stream, as observed by the copy loop at
lines 158-159: a chunk that is read and written, or an exception raised by
the read or the write. -/
inductive StreamEvent where
  | chunk (data : List Nat)
  | fail (e : PyExc)
deriving DecidableEq, Repr

/-- Upstream response handed to the handler by aiohttp (lines 102 onward). -/
structure UpstreamResponse where
  status : Nat
  reason : String
  headers : List (String × String)
  body : List StreamEvent
deriving DecidableEq, Repr

/-- Outcome of the outbound fetch `session.get/head(decoded_url, ...)`:
either a response or a raised exception. -/
inductive FetchResult where
  | ok (resp : UpstreamResponse)
  | raise (e : PyExc)
deriving DecidableEq, Repr

/-- TLS mode of the outbound connector (lines 82-88): verification disabled,
or the default context loaded from the system trust store (lines 34-35). -/
inductive ConnectorSsl where
  | disabled
  | systemTruststore
deriving DecidableEq, Repr

/-- Record of the outbound fetch call the handler issues: target URL after
percent-decoding, method, the headers dict given to `ClientSession`, the
`proxy=` argument, the connector's ssl mode and the session's total timeout. -/
structure FetchCall where
  url : String
  method : Method
  headers : List (String × String)
  proxy : Option String
  ssl : ConnectorSsl
  timeoutTotal : Nat
deriving DecidableEq, Repr

/-- Body of an outward response: a JSON object (modelled as its key/value
pairs, from `web.json_response`), a streamed body with the bytes actually
written and whether `write_eof` ran, or an empty body (`web.Response`). -/
inductive Body where
  | json (fields : List (String × String))
  | stream (bytes : List Nat) (eof : Bool)
  | empty
deriving DecidableEq, Repr

/-- An outward HTTP response: status, the headers the code sets explicitly,
and the body. -/
structure HttpResponse where
  status : Nat
  headers : List (String × String)
  body : Body
deriving DecidableEq, Repr

/-- Result of running the handler: a response returned to the server, or an
exception propagating out of `proxy_handler` uncaught. -/
inductive HResult where
  | resp (r : HttpResponse)
  | raised (e : PyExc)
deriving DecidableEq, Repr

/-- Status code of a returned response, if one was returned. -/
def HResult.statusOf : HResult → Option Nat
  | .resp r => some r.status
  | .raised _ => none

/-- Header list of a returned response, if one was returned. -/
def HResult.headersOf : HResult → Option (List (String × String))
  | .resp r => some r.headers
  | .raised _ => none

/-- Whether the handler propagated an exception instead of responding. -/
def HResult.isRaised : HResult → Bool
  | .resp _ => false
  | .raised _ => true

/-- Full observable outcome of one handler invocation: the result plus the
outbound fetch call that was issued, if any. -/
structure HandlerOut where
  result : HResult
  fetchCall : Option FetchCall
deriving DecidableEq, Repr

/-- Default `User-Agent` used when the caller sent none (line 60). -/
def defaultUserAgent : String := "Mozilla/5.0 (compatible; HTTPProxy/1.0)"

/-- Outbound headers dict built at lines 59-74: always `User-Agent`;
`Cache-Control: max-age=3600` when using the upstream proxy; the caller's
`Range` and `Referer` verbatim when present.  Nothing else. -/
def outboundHeaders (cfg : Config) (callerHeaders : List (String × String)) :
    List (String × String) :=
  [("User-Agent", (ciGet callerHeaders "User-Agent").getD defaultUserAgent)]
  ++ (if cfg.useUpstream then [("Cache-Control", "max-age=3600")] else [])
  ++ (match ciGet callerHeaders "Range" with
      | some v => [("Range", v)]
      | none => [])
  ++ (match ciGet callerHeaders "Referer" with
      | some v => [("Referer", v)]
      | none => [])

/-- Allow-list of upstream headers copied outward (lines 113-117). -/
def headers_to_forward : List String :=
  ["content-type", "content-length", "content-range",
   "accept-ranges", "last-modified", "etag",
   "cache-control", "expires"]

/-- Upstream headers actually copied outward (lines 119-121): each allow-list
name present in the upstream response, with its first value, in list order. -/
def forwardedHeaders (upstreamHeaders : List (String × String)) :
    List (String × String) :=
  headers_to_forward.filterMap fun h => (ciGet upstreamHeaders h).map fun v => (h, v)

/-- The four CORS headers always added (lines 124-127). -/
def corsHeaders : List (String × String) :=
  [("Access-Control-Allow-Origin", "*"),
   ("Access-Control-Allow-Headers",
     "Origin, X-Requested-With, Content-Type, Accept, Range, User-Agent"),
   ("Access-Control-Allow-Methods", "GET, HEAD, OPTIONS"),
   ("Access-Control-Expose-Headers", "Content-Range, Content-Length, Accept-Ranges")]

/-- Cache-status diagnostic computed at lines 130-133 for logging only. -/
def cacheStatus (upstreamHeaders : List (String × String)) : String :=
  match (ciGet upstreamHeaders "x-cache").orElse
        (fun _ => ciGet upstreamHeaders "x-cache-lookup") with
  | some x => if hasSubChars "HIT".data x.data then "CACHE HIT" else "CACHE MISS"
  | none => "Cache status unknown"

/-- Whether an exception raised inside the copy loop is swallowed there:
the three disconnect classes of line 160, or any `Exception` whose text
contains `closing transport` or `connection` case-insensitively (line 165). -/
def streamSwallow (e : PyExc) : Bool :=
  e.cls.isLoopDisconnect ||
  (e.isExceptionSubclass &&
    (hasSubLower "closing transport" e.msg || hasSubLower "connection" e.msg))

/-- The body copy loop (lines 156-168 plus `write_eof` at 170): accumulates
written bytes; on an exception either swallows it (returning the bytes
written so far, with no eof) or re-raises it.  The `Bool` records whether
`write_eof` ran. -/
def copyBody : List StreamEvent → List Nat → Except PyExc (List Nat × Bool)
  | [], acc => .ok (acc, true)
  | .chunk d :: rest, acc => copyBody rest (acc ++ d)
  | .fail e :: _, acc => if streamSwallow e then .ok (acc, false) else .error e

/-- Boolean success test for `Except`. -/
def exceptOk {ε α : Type} : Except ε α → Bool
  | .ok _ => true
  | .error _ => false

/-- Substrings scanned at line 175 to classify a proxy error as a normal
disconnection. -/
def disconnTerm (msg : String) : Bool :=
  hasSubLower "closing transport" msg ||
  hasSubLower "connection reset" msg ||
  hasSubLower "broken pipe" msg

/-- The `except Exception as proxy_error` block at lines 173-192: a
disconnection-class message yields a bare 499; any other `Exception` yields a
structured 500; a non-`Exception` (e.g. `CancelledError`) is not caught. -/
def handleProxyError (cfg : Config) (e : PyExc) : HResult :=
  if e.isExceptionSubclass then
    if disconnTerm e.msg then
      .resp { status := 499, headers := [], body := .empty }
    else
      .resp { status := 500, headers := [],
              body := .json
                [("error", "Proxy request failed"),
                 ("details", e.msg),
                 ("upstreamProxy",
                   if cfg.useUpstream then cfg.upstreamProxyUrl else "disabled")] }
  else .raised e

/-- The outermost `except Exception` at lines 194-196: converts any
still-uncaught `Exception` to a generic 500; non-`Exception` classes still
propagate. -/
def outerCatch : HResult → HResult
  | .raised e =>
    if e.isExceptionSubclass then
      .resp { status := 500, headers := [],
              body := .json [("error", "Internal server error")] }
    else .raised e
  | r => r

/-- The 400 response of line 50 for a missing or empty `url` parameter. -/
def missingUrlResponse : HttpResponse :=
  { status := 400, headers := [], body := .json [("error", "Missing url parameter")] }

/-- Shallow embedding of `proxy_handler` (lines 37-196).  `fr` is the outcome
of the outbound fetch, consulted only if the fetch is issued. -/
def proxy_handler (cfg : Config) (req : InRequest) (fr : FetchResult) : HandlerOut :=
  match req.urlParam with
  | none => { result := .resp missingUrlResponse, fetchCall := none }
  | some u =>
    if u = "" then { result := .resp missingUrlResponse, fetchCall := none }
    else
      let proxy : Option String :=
        if cfg.useUpstream then some cfg.upstreamProxyUrl else none
      let ssl : ConnectorSsl :=
        if cfg.useUpstream && pyTruthy proxy then .disabled else .systemTruststore
      let call : FetchCall :=
        { url := unquote u, method := req.method,
          headers := outboundHeaders cfg req.headers,
          proxy := proxy, ssl := ssl, timeoutTotal := 30 }
      let res : HResult :=
        match fr with
        | .raise e => handleProxyError cfg e
        | .ok resp =>
          if resp.status ≥ 400 then
            .resp { status := resp.status, headers := [],
                    body := .json
                      [("error", "Upstream error: " ++ toString resp.status
                         ++ " " ++ resp.reason)] }
          else
            let outHdrs := forwardedHeaders resp.headers ++ corsHeaders
            match req.method with
            | .head =>
              .resp { status := resp.status, headers := outHdrs, body := .stream [] true }
            | .get =>
              match copyBody resp.body [] with
              | .ok (bs, eof) =>
                .resp { status := resp.status, headers := outHdrs, body := .stream bs eof }
              | .error e => handleProxyError cfg e
      { result := outerCatch res, fetchCall := some call }

/-! Concrete fixtures used by witnesses and counterexamples. -/

/-- Configuration with the upstream proxy enabled (the environment default). -/
def wCfgU : Config := { useUpstream := true, upstreamProxyUrl := "http://192.168.1.79:3128" }

/-- Configuration with the upstream proxy disabled. -/
def wCfgD : Config := { useUpstream := false, upstreamProxyUrl := "http://192.168.1.79:3128" }

/-- A GET request with a target URL and a `Range` header. -/
def wReqG : InRequest :=
  { method := .get, urlParam := some "http://example.com/a",
    headers := [("Range", "bytes=0-1023")] }

/-- A HEAD request with a target URL. -/
def wReqH : InRequest :=
  { method := .head, urlParam := some "http://example.com/a", headers := [] }

/-- A request with no `url` query parameter. -/
def wReqNone : InRequest := { method := .get, urlParam := none, headers := [] }

/-- A 206 upstream response with range headers and one body chunk. -/
def wResp206 : UpstreamResponse :=
  { status := 206, reason := "Partial Content",
    headers := [("Content-Range", "bytes 0-1023/2048"), ("Content-Type", "video/mp4")],
    body := [.chunk [1, 2, 3]] }

/-- A 404 upstream response. -/
def wResp404 : UpstreamResponse :=
  { status := 404, reason := "Not Found", headers := [], body := [.chunk [9]] }

/-- A 200 upstream response with a `Content-Length` header. -/
def wRespHead : UpstreamResponse :=
  { status := 200, reason := "OK", headers := [("Content-Length", "2048")],
    body := [.chunk [1, 2]] }

/-- A 200 upstream response whose stream breaks with a connection reset after
two chunks. -/
def wRespReset : UpstreamResponse :=
  { status := 200, reason := "OK", headers := [],
    body := [.chunk [1, 2], .chunk [3],
             .fail { cls := .connectionResetError, msg := "Connection reset by peer" }] }

/-! Helper lemmas. -/

/-- Copying a run of chunks accumulates their bytes. -/
theorem copyBody_append_chunks (pre : List (List Nat)) (tail : List StreamEvent)
    (acc : List Nat) :
    copyBody (pre.map StreamEvent.chunk ++ tail) acc = copyBody tail (acc ++ pre.flatten) := by
  induction pre generalizing acc with
  | nil => simp
  | cons d ds ih => simp [copyBody, ih, List.append_assoc]

/-- An exception not swallowed by the copy loop derives from `Exception`
(the loop already swallows every `CancelledError`). -/
theorem not_swallow_isException (e : PyExc) (h : streamSwallow e = false) :
    e.isExceptionSubclass = true := by
  rcases e with ⟨cls, msg⟩
  cases cls <;> simp_all [streamSwallow, ExcClass.isLoopDisconnect, PyExc.isExceptionSubclass]

/-- Any exception re-raised out of the body copy derives from `Exception`. -/
theorem copyBody_error_isException (evs : List StreamEvent) (acc : List Nat) (e : PyExc)
    (h : copyBody evs acc = .error e) : e.isExceptionSubclass = true := by
  induction evs generalizing acc with
  | nil => exact absurd h (by simp [copyBody])
  | cons ev rest ih =>
    cases ev with
    | chunk d => exact ih _ (by simpa [copyBody] using h)
    | fail e2 =>
      simp only [copyBody] at h
      by_cases hsw : streamSwallow e2 = true
      · rw [if_pos hsw] at h
        exact absurd h (by simp)
      · rw [if_neg hsw] at h
        injection h with h2
        exact h2 ▸ not_swallow_isException e2 (by simpa using hsw)

/-- The outer `except Exception` leaves the inner error translation alone
when the exception derives from `Exception` (the inner block then already
produced a response). -/
theorem outerCatch_handleProxyError (cfg : Config) (e : PyExc)
    (h : e.isExceptionSubclass = true) :
    outerCatch (handleProxyError cfg e) = handleProxyError cfg e := by
  simp only [handleProxyError, h, if_true]
  split <;> simp [outerCatch]

/-! Claim theorems. -/

/-- C5: a request whose `url` query parameter is absent or empty gets exactly
a 400 response with a structured JSON error body and no outbound fetch, while
any non-empty `url` value is percent-decoded and passed to the fetch with no
further validation. -/
theorem missing_url_rejected (cfg : Config) (req : InRequest) (fr : FetchResult) :
    (req.urlParam = none ∨ req.urlParam = some "" →
      proxy_handler cfg req fr =
        { result := .resp missingUrlResponse, fetchCall := none }) ∧
    (∀ u, req.urlParam = some u → u ≠ "" →
      (proxy_handler cfg req fr).fetchCall.map FetchCall.url = some (unquote u)) := by
  constructor
  · rintro (h | h) <;> simp [proxy_handler, h]
  · intro u hu hne
    simp [proxy_handler, hu, hne]

/-- Witness for C5: a request without `url` is answered 400 with no fetch,
and a request with `url=a%20b` leads to a fetch of the decoded `a b`. -/
theorem missing_url_rejected_witness :
    proxy_handler wCfgU wReqNone (.ok wResp206) =
      { result := .resp missingUrlResponse, fetchCall := none } ∧
    (proxy_handler wCfgU
        { method := .get, urlParam := some "a%20b", headers := [] }
        (.ok wResp206)).fetchCall.map FetchCall.url = some "a b" :=
  ⟨(missing_url_rejected wCfgU wReqNone (.ok wResp206)).1 (Or.inl rfl),
   ((missing_url_rejected wCfgU
        { method := .get, urlParam := some "a%20b", headers := [] }
        (.ok wResp206)).2 "a%20b" rfl (by decide)).trans (by decide)⟩

/-- C3: for any request with a non-empty target URL, the outbound header
mapping is exactly: `User-Agent` (caller's, else the fixed default);
`Cache-Control: max-age=3600` iff the upstream proxy is in use; the caller's
`Range` and `Referer` verbatim when supplied; and nothing else. -/
theorem outbound_header_policy (cfg : Config) (req : InRequest) (fr : FetchResult)
    (u : String) (hu : req.urlParam = some u) (hne : u ≠ "") :
    (proxy_handler cfg req fr).fetchCall.map FetchCall.headers =
      some ([("User-Agent",
              (ciGet req.headers "User-Agent").getD
                "Mozilla/5.0 (compatible; HTTPProxy/1.0)")]
        ++ (if cfg.useUpstream then [("Cache-Control", "max-age=3600")] else [])
        ++ (match ciGet req.headers "Range" with
            | some v => [("Range", v)]
            | none => [])
        ++ (match ciGet req.headers "Referer" with
            | some v => [("Referer", v)]
            | none => [])) := by
  simp [proxy_handler, hu, hne, outboundHeaders, defaultUserAgent]

/-- Witness for C3: with the upstream proxy enabled, a caller sending only a
`Range` header yields exactly default `User-Agent`, `Cache-Control`, `Range`. -/
theorem outbound_header_policy_witness :
    (proxy_handler wCfgU wReqG (.ok wResp206)).fetchCall.map FetchCall.headers =
      some [("User-Agent", "Mozilla/5.0 (compatible; HTTPProxy/1.0)"),
            ("Cache-Control", "max-age=3600"),
            ("Range", "bytes=0-1023")] :=
  (outbound_header_policy wCfgU wReqG (.ok wResp206) "http://example.com/a"
    rfl (by decide)).trans (by decide)

/-- C2 counterexample: with `USE_UPSTREAM` true but an empty configured proxy
address, line 82's truthiness test fails and the connector keeps system
trust-store TLS verification, contradicting the claim that every
`USE_UPSTREAM=true` fetch runs with verification disabled. -/
theorem upstream_empty_proxy_ssl_counterexample :
    (proxy_handler { useUpstream := true, upstreamProxyUrl := "" }
        { method := .get, urlParam := some "http://example.com/a", headers := [] }
        (.ok wResp206)).fetchCall.map FetchCall.ssl
      = some ConnectorSsl.systemTruststore ∧
    some ConnectorSsl.systemTruststore ≠ some ConnectorSsl.disabled := by
  decide

/-- C2 (amended): the fetch's proxy argument is the configured address exactly
when `USE_UPSTREAM` is true (else absent), and TLS verification is disabled
exactly when `USE_UPSTREAM` is true and the configured address is non-empty;
otherwise the system trust store verifies certificates. -/
theorem fetch_routing_modes (cfg : Config) (req : InRequest) (fr : FetchResult)
    (u : String) (hu : req.urlParam = some u) (hne : u ≠ "") :
    (proxy_handler cfg req fr).fetchCall.map (fun c => (c.proxy, c.ssl)) =
      some ((if cfg.useUpstream then some cfg.upstreamProxyUrl else none),
            (if cfg.useUpstream && !(cfg.upstreamProxyUrl = "")
             then ConnectorSsl.disabled else ConnectorSsl.systemTruststore)) := by
  cases hcu : cfg.useUpstream <;> simp [proxy_handler, hu, hne, hcu, pyTruthy]

/-- Witness for C2 (amended): with the upstream proxy enabled and a non-empty
address, the fetch goes through that address with TLS verification disabled. -/
theorem fetch_routing_modes_witness :
    (proxy_handler wCfgU wReqG (.ok wResp206)).fetchCall.map (fun c => (c.proxy, c.ssl)) =
      some (some "http://192.168.1.79:3128", ConnectorSsl.disabled) :=
  (fetch_routing_modes wCfgU wReqG (.ok wResp206) "http://example.com/a"
    rfl (by decide)).trans (by decide)

/-- C4: an upstream response with status at least 400 is not streamed; the
handler answers with the same status and a JSON body carrying the upstream
status and reason, for every upstream body stream. -/
theorem upstream_error_relay (cfg : Config) (req : InRequest) (fr : FetchResult)
    (u : String) (resp : UpstreamResponse)
    (hu : req.urlParam = some u) (hne : u ≠ "")
    (hf : fr = .ok resp) (hs : resp.status ≥ 400) :
    (proxy_handler cfg req fr).result =
      .resp { status := resp.status, headers := [],
              body := .json
                [("error", "Upstream error: " ++ toString resp.status
                   ++ " " ++ resp.reason)] } := by
  simp [proxy_handler, hu, hne, hf, hs, outerCatch]

/-- Witness for C4: a 404 upstream response is relayed as a 404 JSON error
and its body chunk is never written outward. -/
theorem upstream_error_relay_witness :
    (proxy_handler wCfgU wReqG (.ok wResp404)).result =
      .resp { status := 404, headers := [],
              body := .json [("error", "Upstream error: 404 Not Found")] } :=
  (upstream_error_relay wCfgU wReqG (.ok wResp404) "http://example.com/a" wResp404
    rfl (by decide) rfl (by decide)).trans (by decide)

/-- C1: whenever an upstream response with status below 400 is relayed (the
body copy does not re-raise), the outward status equals the upstream status
and the outward header list is exactly the allow-list headers the upstream
provided (case-insensitively, values verbatim) followed by the four fixed
CORS headers, and nothing else. -/
theorem relay_success_status_headers (cfg : Config) (req : InRequest)
    (fr : FetchResult) (u : String) (resp : UpstreamResponse)
    (hu : req.urlParam = some u) (hne : u ≠ "")
    (hf : fr = .ok resp) (hs : resp.status < 400)
    (hc : req.method = .head ∨ exceptOk (copyBody resp.body []) = true) :
    (proxy_handler cfg req fr).result.statusOf = some resp.status ∧
    (proxy_handler cfg req fr).result.headersOf =
      some (forwardedHeaders resp.headers ++ corsHeaders) := by
  have hlt : ¬ resp.status ≥ 400 := by omega
  rcases hc with hm | hcb
  · simp [proxy_handler, hu, hne, hf, hlt, hm, outerCatch,
      HResult.statusOf, HResult.headersOf]
  · cases hm : req.method with
    | head =>
      simp [proxy_handler, hu, hne, hf, hlt, hm, outerCatch,
        HResult.statusOf, HResult.headersOf]
    | get =>
      cases hcb2 : copyBody resp.body [] with
      | ok p =>
        obtain ⟨bs, eof⟩ := p
        simp [proxy_handler, hu, hne, hf, hlt, hm, hcb2, outerCatch,
          HResult.statusOf, HResult.headersOf]
      | error e2 =>
        rw [hcb2] at hcb
        exact absurd hcb (by simp [exceptOk])

/-- Witness for C1: a 206 range response is relayed with status 206 and
exactly the provided allow-list headers plus the four CORS headers. -/
theorem relay_success_status_headers_witness :
    (proxy_handler wCfgD wReqG (.ok wResp206)).result.statusOf = some wResp206.status ∧
    (proxy_handler wCfgD wReqG (.ok wResp206)).result.headersOf =
      some (forwardedHeaders wResp206.headers ++ corsHeaders) :=
  relay_success_status_headers wCfgD wReqG (.ok wResp206) "http://example.com/a"
    wResp206 rfl (by decide) rfl (by decide) (Or.inr (by decide))

/-- C7: every HEAD request writes zero body bytes outward whatever the
upstream body holds, while forwarding the allow-listed upstream headers; in
particular `content-length` is forwarded whenever the upstream provided it. -/
theorem head_no_body (cfg : Config) (req : InRequest) (fr : FetchResult)
    (u : String) (resp : UpstreamResponse)
    (hu : req.urlParam = some u) (hne : u ≠ "")
    (hf : fr = .ok resp) (hs : resp.status < 400)
    (hm : req.method = .head) :
    (proxy_handler cfg req fr).result =
      .resp { status := resp.status,
              headers := forwardedHeaders resp.headers ++ corsHeaders,
              body := .stream [] true } ∧
    (∀ clv, ciGet resp.headers "content-length" = some clv →
      ("content-length", clv) ∈ forwardedHeaders resp.headers ++ corsHeaders) := by
  have hlt : ¬ resp.status ≥ 400 := by omega
  constructor
  · simp [proxy_handler, hu, hne, hf, hlt, hm, outerCatch]
  · intro clv hcl
    apply List.mem_append_left
    unfold forwardedHeaders
    apply List.mem_filterMap.mpr
    exact ⟨"content-length", by decide, by rw [hcl]; rfl⟩

/-- Witness for C7: a HEAD request against a 200 response with
`Content-Length: 2048` and a two-byte body yields a zero-byte outward body
with the `content-length` header forwarded. -/
theorem head_no_body_witness :
    (proxy_handler wCfgD wReqH (.ok wRespHead)).result =
      .resp { status := wRespHead.status,
              headers := forwardedHeaders wRespHead.headers ++ corsHeaders,
              body := .stream [] true } ∧
    ("content-length", "2048") ∈ forwardedHeaders wRespHead.headers ++ corsHeaders :=
  ⟨(head_no_body wCfgD wReqH (.ok wRespHead) "http://example.com/a" wRespHead
      rfl (by decide) rfl (by decide) rfl).1,
   (head_no_body wCfgD wReqH (.ok wRespHead) "http://example.com/a" wRespHead
      rfl (by decide) rfl (by decide) rfl).2 "2048" (by decide)⟩

/-- C6 counterexample: a `ValueError` whose text contains `connection` is
raised during the body copy; the claim says every exception outside
connection-reset, broken-pipe and cancellation is re-raised to the outer
handler, but line 165 swallows it and the handler returns the already-started
200 response instead of the outer handler's translation of the error. -/
theorem stream_swallow_counterexample :
    (proxy_handler wCfgD
        { method := .get, urlParam := some "http://example.com/a", headers := [] }
        (.ok { status := 200, reason := "OK", headers := [],
               body := [.fail { cls := .otherExc "ValueError",
                                msg := "connection lost" }] })).result
      = .resp { status := 200, headers := corsHeaders, body := .stream [] false } ∧
    ExcClass.isLoopDisconnect (.otherExc "ValueError") = false ∧
    (proxy_handler wCfgD
        { method := .get, urlParam := some "http://example.com/a", headers := [] }
        (.ok { status := 200, reason := "OK", headers := [],
               body := [.fail { cls := .otherExc "ValueError",
                                msg := "connection lost" }] })).result
      ≠ handleProxyError wCfgD { cls := .otherExc "ValueError", msg := "connection lost" } := by
  decide

/-- C6 (amended): an exception during the body copy is swallowed and the
already-started response (with the bytes written so far and no end-of-body)
is returned exactly when the exception is a connection reset, a broken pipe,
a cancellation, or any `Exception` whose text contains `closing transport` or
`connection` case-insensitively; every other exception is re-raised to the
outer handler, which maps it to 499 on a disconnection-like text and to a
structured 500 otherwise. -/
theorem stream_disconnect_handling (cfg : Config) (req : InRequest)
    (fr : FetchResult) (u : String) (resp : UpstreamResponse)
    (pre : List (List Nat)) (e : PyExc) (rest : List StreamEvent)
    (hu : req.urlParam = some u) (hne : u ≠ "") (hm : req.method = .get)
    (hf : fr = .ok resp) (hs : resp.status < 400)
    (hb : resp.body = pre.map StreamEvent.chunk ++ StreamEvent.fail e :: rest) :
    (proxy_handler cfg req fr).result =
      (if streamSwallow e then
        .resp { status := resp.status,
                headers := forwardedHeaders resp.headers ++ corsHeaders,
                body := .stream pre.flatten false }
      else handleProxyError cfg e) := by
  have hlt : ¬ resp.status ≥ 400 := by omega
  have hcb : copyBody resp.body [] =
      (if streamSwallow e then .ok (pre.flatten, false) else .error e) := by
    rw [hb, copyBody_append_chunks]
    simp [copyBody]
  by_cases hsw : streamSwallow e = true
  · simp [proxy_handler, hu, hne, hf, hm, hlt, hcb, hsw, outerCatch]
  · have hswf : streamSwallow e = false := by simpa using hsw
    have hexc : e.isExceptionSubclass = true := not_swallow_isException e hswf
    simp [proxy_handler, hu, hne, hf, hm, hlt, hcb, hswf,
      outerCatch_handleProxyError cfg e hexc]

/-- Witness for C6 (amended): a connection reset after two chunks ends the
stream as a successful partial completion carrying exactly the bytes already
written and no end-of-body marker. -/
theorem stream_disconnect_handling_witness :
    (proxy_handler wCfgD wReqG (.ok wRespReset)).result =
      .resp { status := 200, headers := forwardedHeaders wRespReset.headers ++ corsHeaders,
              body := .stream [1, 2, 3] false } :=
  (stream_disconnect_handling wCfgD wReqG (.ok wRespReset) "http://example.com/a"
    wRespReset [[1, 2], [3]]
    { cls := .connectionResetError, msg := "Connection reset by peer" } []
    rfl (by decide) rfl rfl (by decide) (by decide)).trans (by decide)

/-- C9: two upstream responses that agree everywhere except on the diagnostic
headers `x-cache`, `x-cache-lookup` and `age` produce identical handler
outcomes: the cache diagnostic of lines 130-133 is observability-only. -/
theorem diagnostic_headers_noninterference (cfg : Config) (req : InRequest)
    (s : Nat) (r : String) (h1 h2 : List (String × String)) (b : List StreamEvent)
    (hagree : ∀ k, lowerStr k ∉ ["x-cache", "x-cache-lookup", "age"] →
      ciGet h1 k = ciGet h2 k) :
    proxy_handler cfg req (.ok { status := s, reason := r, headers := h1, body := b }) =
    proxy_handler cfg req (.ok { status := s, reason := r, headers := h2, body := b }) := by
  have hfwd : forwardedHeaders h1 = forwardedHeaders h2 := by
    unfold forwardedHeaders
    apply List.filterMap_congr
    intro a ha
    have haa : lowerStr a ∉ ["x-cache", "x-cache-lookup", "age"] := by
      fin_cases ha <;> decide
    rw [hagree a haa]
  simp only [proxy_handler, hfwd]

/-- Witness for C9: adding an `X-Cache: HIT from squid` header changes the
logged cache diagnostic but not the handler outcome. -/
theorem diagnostic_headers_noninterference_witness :
    proxy_handler wCfgU wReqG
        (.ok { status := 200, reason := "OK",
               headers := [("X-Cache", "HIT from squid")], body := [.chunk [5]] }) =
      proxy_handler wCfgU wReqG
        (.ok { status := 200, reason := "OK", headers := [], body := [.chunk [5]] }) ∧
    cacheStatus [("X-Cache", "HIT from squid")] ≠ cacheStatus [] := by
  refine ⟨diagnostic_headers_noninterference wCfgU wReqG 200 "OK"
    [("X-Cache", "HIT from squid")] [] [.chunk [5]] ?_, by decide⟩
  intro k hk
  have hne2 : ¬ lowerStr "X-Cache" = lowerStr k := by
    intro hcontra
    exact hk (by rw [← hcontra]; decide)
  simp only [ciGet, if_neg hne2]

/-- C10 counterexample: a cancellation raised by the fetch (`CancelledError`
derives from `BaseException`, not `Exception`, in Python >= 3.8) escapes both
`except Exception` clauses and propagates out of `proxy_handler`,
contradicting the claim that every exception is converted to a response. -/
theorem cancelled_propagates_counterexample :
    (proxy_handler wCfgU
        { method := .get, urlParam := some "http://example.com/a", headers := [] }
        (.raise { cls := .cancelledError, msg := "cancelled" })).result
      = .raised { cls := .cancelledError, msg := "cancelled" } := by
  decide

/-- C10 (amended): the handler propagates an exception instead of returning a
response exactly when the target URL is non-empty and the fetch raises an
exception that does not derive from `Exception` (such as `CancelledError`);
in every other case, including arbitrary `Exception`-derived failures of the
fetch or of the body copy, it returns some HTTP response. -/
theorem handler_exception_totality (cfg : Config) (req : InRequest) (fr : FetchResult) :
    (proxy_handler cfg req fr).result.isRaised = true ↔
      (pyTruthy req.urlParam = true ∧
        ∃ e, fr = .raise e ∧ e.isExceptionSubclass = false) := by
  cases hq : req.urlParam with
  | none => simp [proxy_handler, hq, pyTruthy, HResult.isRaised]
  | some u =>
    by_cases hne : u = ""
    · subst hne
      simp [proxy_handler, hq, pyTruthy, HResult.isRaised]
    · have hpy : pyTruthy (some u) = true := by simp [pyTruthy, hne]
      cases hf : fr with
      | raise e =>
        have hres : (proxy_handler cfg req (.raise e)).result =
            outerCatch (handleProxyError cfg e) := by
          simp [proxy_handler, hq, hne]
        rw [hres]
        cases hexc : e.isExceptionSubclass with
        | true =>
          rw [outerCatch_handleProxyError cfg e hexc]
          unfold handleProxyError
          rw [if_pos hexc]
          split <;> simp [HResult.isRaised, hexc]
        | false =>
          have hraised : outerCatch (handleProxyError cfg e) = .raised e := by
            simp [handleProxyError, hexc, outerCatch]
          rw [hraised]
          simp only [HResult.isRaised, hpy, true_and, true_iff]
          exact ⟨e, rfl, hexc⟩
      | ok resp =>
        suffices hsuff : (proxy_handler cfg req (.ok resp)).result.isRaised = false by
          simp [hsuff]
        by_cases hs : resp.status ≥ 400
        · simp [proxy_handler, hq, hne, hs, outerCatch, HResult.isRaised]
        · cases hm : req.method with
          | head =>
            simp [proxy_handler, hq, hne, hs, hm, outerCatch, HResult.isRaised]
          | get =>
            cases hcb : copyBody resp.body [] with
            | ok p =>
              obtain ⟨bs, eof⟩ := p
              simp [proxy_handler, hq, hne, hs, hm, hcb, outerCatch, HResult.isRaised]
            | error e2 =>
              have hexc2 : e2.isExceptionSubclass = true :=
                copyBody_error_isException resp.body [] e2 hcb
              have hres2 : (proxy_handler cfg req (.ok resp)).result =
                  outerCatch (handleProxyError cfg e2) := by
                simp [proxy_handler, hq, hne, hs, hm, hcb]
              rw [hres2, outerCatch_handleProxyError cfg e2 hexc2]
              unfold handleProxyError
              rw [if_pos hexc2]
              split <;> simp [HResult.isRaised]

end VideoProxy
